import Mathlib

/-!
Shallow embedding of the resource-lifetime core of the `luminary` renderer
(src/src/graphics/*), covering the deletion queue, the frames-in-flight ring,
the swapchain acquire loop, the buffer builder and the top-level teardown.
Vulkan handles are modelled as natural numbers; the native device and the
external GPU allocator are modelled as oracles recording which calls fail.
-/

namespace Luminary

/-! ## delete_queue.rs -/

/-- The tagged union of pending destructions
(`DeletionEntry`, src/src/graphics/delete_queue.rs lines 60-72).
Handles are modelled as naturals. -/
inductive DeletionEntry where
  | Semaphore (h : Nat)
  | Fence (h : Nat)
  | CommandPool (h : Nat)
  | Image (h : Nat)
  | ImageView (h : Nat)
  | Allocation (h : Nat)
  | ShaderModule (h : Nat)
  | DescriptorPool (h : Nat)
  | DescriptorSetLayout (h : Nat)
  | Pipeline (h : Nat)
  | PipelineLayout (h : Nat)
deriving DecidableEq

/-- Oracle for the external GPU allocator collaborator: `freeFails h` tells
whether `alloc.free` on allocation `h` returns an error (and with which
message). All other destruction calls in the source are infallible. -/
structure Allocator where
  freeFails : Nat → Option String

/-- `DeletionEntry::destroy` (delete_queue.rs lines 75-124): every arm but
`Allocation` is an infallible native destroy; the `Allocation` arm calls
`alloc.free(allocation)?` which can fail. -/
def DeletionEntry.destroy (e : DeletionEntry) (a : Allocator) : Except String Unit :=
  match e with
  | .Allocation h =>
    match a.freeFails h with
    | some msg => .error msg
    | none => .ok ()
  | _ => .ok ()

/-- `DeleteQueue` (delete_queue.rs line 8): a vector of deletion entries,
front of the list = oldest entry. -/
structure DeleteQueue where
  inner : List DeletionEntry
deriving DecidableEq

/-- `DeleteQueue::new` (delete_queue.rs lines 13-15). -/
def DeleteQueue.new : DeleteQueue := { inner := [] }

/-- `DeleteQueue::push` (delete_queue.rs lines 18-25): `Vec::push` appends at
the back. -/
def DeleteQueue.push (q : DeleteQueue) (e : DeletionEntry) : DeleteQueue :=
  { inner := q.inner ++ [e] }

/-- A sequence of `push` calls, in order. -/
def DeleteQueue.pushAll (q : DeleteQueue) (l : List DeletionEntry) : DeleteQueue :=
  l.foldl DeleteQueue.push q

/-- `DeleteQueue::append` (delete_queue.rs lines 29-31): `Vec::append` moves
all of `from`'s elements to the back of `self`, leaving `from` empty.
The result is the pair (new self, new from). -/
def DeleteQueue.append (self from_ : DeleteQueue) : DeleteQueue × DeleteQueue :=
  ({ inner := self.inner ++ from_.inner }, { inner := [] })

/-- Observable outcome of a `flush`: the queue afterwards, the entries on
which `destroy` was invoked in invocation order, and the logged error
messages (`tracing::error!` for each failed destroy), in order. -/
structure FlushResult where
  queue : DeleteQueue
  destroyed : List DeletionEntry
  errorsLogged : List String
deriving DecidableEq

/-- The body of the flush loop (delete_queue.rs lines 39-43): iterate over the
given list, destroy each entry, log the error of a failed destroy and keep
going. Returns the entries destroyed (in order) and the logged errors. -/
def destroyLoop (a : Allocator) : List DeletionEntry → List DeletionEntry × List String
  | [] => ([], [])
  | e :: rest =>
    let logged :=
      match e.destroy a with
      | .ok _ => []
      | .error msg => [msg]
    let tail := destroyLoop a rest
    (e :: tail.1, logged ++ tail.2)

/-- `DeleteQueue::flush` (delete_queue.rs lines 33-44): early-return on an
empty queue, otherwise `drain(..).rev()` iterates the entries back to front,
destroying each; a failed destroy is logged and the loop continues. The
function returns `()` in the source: no error ever propagates to the caller,
which the model reflects by the total return type. -/
def DeleteQueue.flush (q : DeleteQueue) (a : Allocator) : FlushResult :=
  if q.inner.isEmpty then
    { queue := q, destroyed := [], errorsLogged := [] }
  else
    let r := destroyLoop a q.inner.reverse
    { queue := { inner := [] }, destroyed := r.1, errorsLogged := r.2 }

/-- `impl Drop for DeleteQueue` (delete_queue.rs lines 47-55): the error
reports emitted when the queue is dropped. An empty queue returns early with
no report; a non-empty one emits exactly one `tracing::error!` report. The
drop body has no panic or abort path, which the model reflects by the total
return type. -/
def DeleteQueue.dropLog (q : DeleteQueue) : List String :=
  if q.inner.isEmpty then []
  else ["delete queue dropped without flushing"]

/-! ## frame.rs : FramesInFlight cursor ring -/

/-- `FramesInFlight.frames` is a fixed array of 2 slots (frame.rs line 13). -/
def framesLen : Nat := 2

/-- Word size of `usize` on the target (64-bit), used to model
`usize::wrapping_sub`. -/
def USIZE : Nat := 2 ^ 64

/-- The cursor state of `FramesInFlight` (frame.rs lines 11-14). Only the
cursor matters for the rotation contract; the two slots are identified by
their indices `0` and `1`. -/
structure FramesInFlight where
  frame : Nat
deriving DecidableEq

/-- `FramesInFlight::increment` (frame.rs lines 49-51):
`self.frame = (self.frame + 1) % self.frames.len()`. -/
def FramesInFlight.increment (s : FramesInFlight) : FramesInFlight :=
  { s with frame := (s.frame + 1) % framesLen }

/-- `FramesInFlight::next` (frame.rs lines 33-37): read the cursor into
`idx`, increment, and return the slot at `idx` (the pre-increment cursor). -/
def FramesInFlight.next (s : FramesInFlight) : FramesInFlight × Nat :=
  let idx := s.frame
  (s.increment, idx)

/-- `FramesInFlight::current` (frame.rs lines 39-42): return the slot at the
cursor without advancing (`&mut self` is returned unchanged). -/
def FramesInFlight.current (s : FramesInFlight) : FramesInFlight × Nat :=
  (s, s.frame)

/-- `FramesInFlight::previous` (frame.rs lines 44-47):
`self.frame.wrapping_sub(1).min(self.frames.len() - 1)`, with
`wrapping_sub 1` modelled as addition of `USIZE - 1` modulo `USIZE`. -/
def FramesInFlight.previous (s : FramesInFlight) : FramesInFlight × Nat :=
  (s, min ((s.frame + (USIZE - 1)) % USIZE) (framesLen - 1))

/-! ## frame.rs : FrameInFlight fence discipline -/

/-- Host-observable state of a Vulkan fence. -/
inductive FenceState where
  | signaled
  | unsignaled
deriving DecidableEq

/-- The per-slot state relevant to the fence/deletion contract
(frame.rs lines 58-70): the render fence, whether submitted GPU work is
still pending, and the slot's private delete queue. -/
structure FrameSlot where
  renderFence : FenceState
  gpuPending : Bool
  deleteQueue : DeleteQueue
deriving DecidableEq

/-- `FrameInFlight::new` (frame.rs lines 73-116): the render fence is created
with `vk::FenceCreateFlags::SIGNALED` (line 104), no work has been
submitted, and the private delete queue starts as `DeleteQueue::new()`
(line 114). -/
def FrameInFlight.new : FrameSlot :=
  { renderFence := .signaled, gpuPending := false, deleteQueue := DeleteQueue.new }

/-- `device.wait_for_fences` at the top of `FrameInFlight::wait`
(frame.rs line 119) returns without blocking exactly when the fence is
already signaled. -/
def FrameSlot.waitWouldBlock (s : FrameSlot) : Bool :=
  s.renderFence == .unsignaled

/-- State after `FrameInFlight::wait` (frame.rs lines 118-125): the fence is
reset to unsignaled (line 120) and the slot's private delete queue is
flushed (line 122). -/
def FrameSlot.wait (s : FrameSlot) (a : Allocator) : FrameSlot :=
  { s with
    renderFence := .unsignaled
    deleteQueue := (s.deleteQueue.flush a).queue }

/-- The host-visible actions of `FrameInFlight::wait`, in source order:
wait on the fence (line 119), reset the fence (line 120), then the destroy
calls of the delete-queue flush (line 122). -/
inductive WaitAction where
  | waitFences
  | resetFences
  | destroy (e : DeletionEntry)
deriving DecidableEq

/-- Action trace of `FrameInFlight::wait`, read off lines 118-122. -/
def FrameSlot.waitTrace (s : FrameSlot) (a : Allocator) : List WaitAction :=
  [.waitFences, .resetFences] ++ (s.deleteQueue.flush a).destroyed.map .destroy

/-- Host-side calls on a slot between two waits: `begin`, `end`, `submit`
(frame.rs lines 127-169). -/
inductive HostEvent where
  | beginRec
  | endRec
  | submit
deriving DecidableEq

/-- Effect of a host call on the slot state: `begin`/`end` only touch the
command buffer; `submit` (frame.rs lines 144-169) hands `render_fence` to
`queue_submit2` so GPU work is pending, but the host-visible fence state is
unchanged (the fence only becomes signaled when the GPU finishes). -/
def FrameSlot.hostStep (e : HostEvent) (s : FrameSlot) : FrameSlot :=
  match e with
  | .beginRec => s
  | .endRec => s
  | .submit => { s with gpuPending := true }

/-- Run a sequence of host calls on a slot. -/
def FrameSlot.hostRun (l : List HostEvent) (s : FrameSlot) : FrameSlot :=
  l.foldl (fun s e => FrameSlot.hostStep e s) s

/-- The GPU completing the submitted work signals the fence passed to
`queue_submit2`. -/
def FrameSlot.gpuComplete (s : FrameSlot) : FrameSlot :=
  { s with renderFence := .signaled, gpuPending := false }

/-! ## swapchain.rs : the acquire loop -/

/-- Outcome of one underlying `acquire_next_image` call
(swapchain.rs lines 94-101), as matched at lines 103-121. -/
inductive AcquireOutcome where
  | ok (index : Nat) (suboptimal : Bool)
  | notReady
  | timeout
  | outOfDate
  | otherErr
deriving DecidableEq

/-- The ways `Swapchain::acquire` can fail: a timeout (swapchain.rs
line 112), any other hard error (line 118), or — an artifact of driving the
loop by a finite oracle — the oracle running out of outcomes. -/
inductive AcquireErr where
  | timeout
  | other
  | oracleExhausted
deriving DecidableEq

/-- The swapchain state relevant to the acquire loop: the `suboptimal`
staleness flag (swapchain.rs line 26). -/
structure SwapchainSt where
  suboptimal : Bool
deriving DecidableEq

/-- `Swapchain::recreate` (swapchain.rs lines 59-81), success path: the chain
is rebuilt by `Self::create`, which starts the new state with
`suboptimal: false` (line 223). -/
def Swapchain.recreate (_s : SwapchainSt) : SwapchainSt :=
  { suboptimal := false }

/-- Result of a successful `Swapchain::acquire`: the returned image index,
the state afterwards, the total number of `recreate` calls performed, and
the part of the outcome oracle not consumed (empty exactly when the success
came on the oracle's last underlying attempt). -/
structure AcquireOk where
  index : Nat
  state : SwapchainSt
  recreations : Nat
  oracleLeft : List AcquireOutcome
deriving DecidableEq

/-- The `loop` of `Swapchain::acquire` (swapchain.rs lines 89-122), driven by
an oracle listing the outcome of each underlying `acquire_next_image` call
and counting `recreate` calls. Per iteration: if the staleness flag is set,
recreate first (lines 90-92); then attempt the acquire; on `Ok` OR the
suboptimal bit into the flag and return the index (lines 104-110); on
`NOT_READY` retry (line 111); on `TIMEOUT` fail (lines 112-114); on
`ERROR_OUT_OF_DATE_KHR` recreate and retry (lines 115-117); on any other
error fail (lines 118-120). -/
def Swapchain.acquireGo (s : SwapchainSt) (recreations : Nat) :
    List AcquireOutcome → Except AcquireErr AcquireOk
  | [] => .error .oracleExhausted
  | o :: rest =>
    let (s, recreations) :=
      if s.suboptimal then (Swapchain.recreate s, recreations + 1) else (s, recreations)
    match o with
    | .ok index sub =>
      .ok { index := index
            state := { s with suboptimal := s.suboptimal || sub }
            recreations := recreations
            oracleLeft := rest }
    | .notReady => Swapchain.acquireGo s recreations rest
    | .timeout => .error .timeout
    | .outOfDate => Swapchain.acquireGo (Swapchain.recreate s) (recreations + 1) rest
    | .otherErr => .error .other

/-- `Swapchain::acquire` on a freshly created (non-stale) swapchain. -/
def Swapchain.acquire (oracle : List AcquireOutcome) : Except AcquireErr AcquireOk :=
  Swapchain.acquireGo { suboptimal := false } 0 oracle

/-- Scenario B of the spec: the underlying acquire reports out-of-date three
times consecutively and then succeeds. -/
def scenarioB : List AcquireOutcome :=
  [.outOfDate, .outOfDate, .outOfDate, .ok 0 false]

/-! ## swapchain.rs / mod.rs : extent clamping and resize -/

/-- `vk::Extent2D` with `u32` components modelled as naturals (all arithmetic
performed on them below stays far from `2^32`, except `next_multiple_of`,
whose overflow panic is outside the claims considered). -/
structure Extent2D where
  width : Nat
  height : Nat
deriving DecidableEq

/-- The surface capability bounds used by `Swapchain::create`
(swapchain.rs lines 167-168 and 184-193). -/
structure SurfaceCaps where
  minImageExtent : Extent2D
  maxImageExtent : Extent2D
deriving DecidableEq

/-- The extent clamp of `Swapchain::create` (swapchain.rs lines 184-193):
each component is `requested.max(caps.min).min(caps.max)`. -/
def clampExtent (ext : Extent2D) (caps : SurfaceCaps) : Extent2D :=
  { width := min (max ext.width caps.minImageExtent.width) caps.maxImageExtent.width
    height := min (max ext.height caps.minImageExtent.height) caps.maxImageExtent.height }

/-- `RENDER_TARGET_MULTIPLES` (mod.rs line 306). -/
def RENDER_TARGET_MULTIPLES : Nat := 256

/-- `u32::next_multiple_of` for a positive modulus: the smallest multiple of
`k` that is `≥ n`. -/
def nextMultipleOf (n k : Nat) : Nat :=
  ((n + k - 1) / k) * k

/-- The early-return test of `Graphics::resize` (mod.rs lines 307-311): keep
the current render target when it covers the swapchain extent and its width
is within `RENDER_TARGET_MULTIPLES` of it. The width difference is tested
twice and the height difference never, exactly as in the source. -/
def renderTargetFits (target surface : Extent2D) : Bool :=
  decide (surface.width ≤ target.width) &&
  decide (surface.height ≤ target.height) &&
  decide (Nat.dist target.width surface.width ≤ RENDER_TARGET_MULTIPLES) &&
  decide (Nat.dist target.width surface.width ≤ RENDER_TARGET_MULTIPLES)

/-- One deletion-queue generation of a render target:
`Graphics::create_render_image` (mod.rs lines 423-441) builds via
`ImageBuilder::build` (image.rs lines 34-98), which pushes the image
(line 57), the allocation (line 72) and the image view (line 90). -/
def renderTargetGeneration : Nat := 3

/-- The state `Graphics::resize` acts on: the render-target extent, the
swapchain extent, and the entry counts of the per-frame delete queues
(taken together) and of the render-target delete queue. -/
structure RenderState where
  targetExt : Extent2D
  swapExt : Extent2D
  frameDQLen : Nat
  rtDQLen : Nat
deriving DecidableEq

/-- `Graphics::resize` (mod.rs lines 297-335), success path, with the window
extent and surface capabilities as inputs: `swapchain.recreate` reads the
window size and clamps it (swapchain.rs lines 62-66 and 184-193); if the
render target still fits, return; otherwise move the render-target delete
queue into the previous frame slot's queue (lines 315-319) and build a new
render target at the extent rounded up to multiples of
`RENDER_TARGET_MULTIPLES` (lines 320-328), pushing one generation of
entries. -/
def Graphics.resize (s : RenderState) (windowExt : Extent2D) (caps : SurfaceCaps) :
    RenderState :=
  let surfaceExt := clampExtent windowExt caps
  let s := { s with swapExt := surfaceExt }
  if renderTargetFits s.targetExt surfaceExt then s
  else
    { targetExt :=
        { width := nextMultipleOf surfaceExt.width RENDER_TARGET_MULTIPLES
          height := nextMultipleOf surfaceExt.height RENDER_TARGET_MULTIPLES }
      swapExt := surfaceExt
      frameDQLen := s.frameDQLen + s.rtDQLen
      rtDQLen := renderTargetGeneration }

/-! ## buffer.rs : BufferBuilder and Buffer views -/

/-- `gpu_allocator::MemoryLocation` as used by the builder. -/
inductive MemoryLocation where
  | GpuOnly
  | CpuToGpu
  | GpuToCpu
  | Unknown
deriving DecidableEq

/-- An allocation handed back by the allocator collaborator: its offset, its
device memory handle, and `mapped_ptr()` — `some` with the mapped memory
(modelled as a byte function over offsets from the pointer) exactly when the
backing memory is host-visible. -/
structure BufAllocation where
  offset : Nat
  memory : Nat
  mappedPtr : Option (Nat → UInt8)

/-- Oracle for the native device calls made by `BufferBuilder::build`:
`create_buffer` per requested size, the memory requirements query, and
`bind_buffer_memory`. -/
structure BufDevice where
  createBuffer : Nat → Except String Nat
  bufferMemoryRequirements : Nat → Nat
  bindBufferMemory : Nat → Nat → Nat → Except String Unit

/-- Oracle for `allocator.allocate` per (requirements, location). -/
structure BufAllocator where
  allocate : Nat → MemoryLocation → Except String BufAllocation

/-- Tags of the two objects `BufferBuilder::build` pushes into the caller's
delete queue (buffer.rs lines 79 and 96). -/
inductive BufPush where
  | buffer (h : Nat)
  | allocation
deriving DecidableEq

/-- `Buffer` (buffer.rs lines 16-20): the native handle, the byte size, and
the optional mapped pointer. -/
structure Buffer where
  buffer : Nat
  size : Nat
  ptr : Option (Nat → UInt8)

/-- `Buffer::as_slice` (buffer.rs lines 23-27): when a mapped pointer is
present, `slice::from_raw_parts(ptr, size)` is a view of exactly `size`
bytes starting at the pointer; otherwise `None`. -/
def Buffer.as_slice (b : Buffer) : Option (List UInt8) :=
  b.ptr.map (fun mem => (List.range b.size).map mem)

/-- `Buffer::as_slice_mut` (buffer.rs lines 29-33): same view, mutable. -/
def Buffer.as_slice_mut (b : Buffer) : Option (List UInt8) :=
  b.ptr.map (fun mem => (List.range b.size).map mem)

/-- `BufferBuilder` (buffer.rs lines 46-50). -/
structure BufferBuilder where
  capacity : Nat
  location : MemoryLocation
deriving DecidableEq

/-- `Buffer::builder` (buffer.rs lines 35-41). -/
def Buffer.builder : BufferBuilder :=
  { capacity := 0, location := .GpuOnly }

/-- `BufferBuilder::build` (buffer.rs lines 68-101): create the native buffer
at `capacity` bytes and push it into the delete queue, query requirements,
allocate at the configured location, take `mapped_ptr()`, push the
allocation, bind, and return the wrapper. Any failing native call aborts
the build with that error; entries already pushed stay in the queue. The
result carries the built `Buffer` and the final queue contents. -/
def BufferBuilder.build (b : BufferBuilder) (device : BufDevice) (allocator : BufAllocator)
    (dq : List BufPush) : Except String (Buffer × List BufPush) × List BufPush :=
  match device.createBuffer b.capacity with
  | .error e => (.error e, dq)
  | .ok buffer =>
    let dq := dq ++ [.buffer buffer]
    let requirements := device.bufferMemoryRequirements buffer
    match allocator.allocate requirements b.location with
    | .error e => (.error e, dq)
    | .ok allocation =>
      let size := b.capacity
      let offset := allocation.offset
      let ptr := allocation.mappedPtr
      let memory := allocation.memory
      let dq := dq ++ [.allocation]
      match device.bindBufferMemory buffer memory offset with
      | .error e => (.error e, dq)
      | .ok _ => (.ok ({ buffer := buffer, size := size, ptr := ptr }, dq), dq)

/-! ## mod.rs : teardown order of `impl Drop for Graphics` -/

/-- The vocabulary of teardown steps; `flushFrameQueue i` (flushing frame
slot `i`'s private delete queue) is named so its absence from the actual
trace can be stated — the drop body never performs it. -/
inductive TeardownStep where
  | deviceWaitIdle
  | flushFrameQueue (i : Nat)
  | flushRenderTargetQueue
  | flushGlobalQueue
  | dropAllocator
  | destroySwapchain
  | destroyDevice
  | destroySurface
  | destroyDebugUtils
deriving DecidableEq

/-- The statement sequence of `impl Drop for Graphics`
(mod.rs lines 535-550), in source order. -/
def graphicsDropTrace : List TeardownStep :=
  [ .deviceWaitIdle
  , .flushRenderTargetQueue
  , .flushGlobalQueue
  , .dropAllocator
  , .destroySwapchain
  , .destroyDevice
  , .destroySurface
  , .destroyDebugUtils ]

/-- Whether a wait action is a delete-queue destroy call. -/
def WaitAction.isDestroy : WaitAction → Bool
  | .destroy _ => true
  | _ => false

/-- A concrete device oracle for the buffer builder on which every native
call succeeds: `create_buffer` hands out handle 10, requirements are zero,
binding succeeds. -/
def witDevice : BufDevice :=
  { createBuffer := fun _ => .ok 10
    bufferMemoryRequirements := fun _ => 0
    bindBufferMemory := fun _ _ _ => .ok () }

/-- A concrete host-visible allocation: mapped pointer present, memory
filled with zero bytes. -/
def witAllocation : BufAllocation :=
  { offset := 0, memory := 5, mappedPtr := some (fun _ => 0) }

/-- A concrete allocator oracle that always returns `witAllocation`. -/
def witAllocator : BufAllocator :=
  { allocate := fun _ _ => .ok witAllocation }

/-- A concrete allocator on which every free succeeds. -/
def okAllocator : Allocator :=
  { freeFails := fun _ => none }

/-- A concrete allocator on which every free fails. -/
def failAllocator : Allocator :=
  { freeFails := fun _ => some "free failed" }

/-! ## Helper lemmas -/

theorem destroyLoop_fst (a : Allocator) (l : List DeletionEntry) :
    (destroyLoop a l).1 = l := by
  induction l with
  | nil => rfl
  | cons e rest ih => simp [destroyLoop, ih]

theorem destroyLoop_snd (a : Allocator) (l : List DeletionEntry) :
    (destroyLoop a l).2 = l.filterMap (fun e =>
      match e.destroy a with
      | .ok _ => none
      | .error msg => some msg) := by
  induction l with
  | nil => rfl
  | cons e rest ih =>
    simp only [destroyLoop, List.filterMap_cons, ih]
    cases h : e.destroy a <;> simp [h]

theorem DeleteQueue.pushAll_inner (l : List DeletionEntry) (q : DeleteQueue) :
    (q.pushAll l).inner = q.inner ++ l := by
  induction l generalizing q with
  | nil => simp [DeleteQueue.pushAll]
  | cons e rest ih =>
    show ((q.push e).pushAll rest).inner = _
    rw [ih]
    simp [DeleteQueue.push]

theorem DeleteQueue.flush_destroyed (q : DeleteQueue) (a : Allocator) :
    (q.flush a).destroyed = q.inner.reverse := by
  obtain ⟨l⟩ := q
  cases l with
  | nil => rfl
  | cons e rest => simp [DeleteQueue.flush, destroyLoop_fst]

theorem DeleteQueue.flush_queue (q : DeleteQueue) (a : Allocator) :
    (q.flush a).queue.inner = [] := by
  obtain ⟨l⟩ := q
  cases l with
  | nil => rfl
  | cons e rest => simp [DeleteQueue.flush]

theorem DeleteQueue.flush_errors (q : DeleteQueue) (a : Allocator) :
    (q.flush a).errorsLogged = q.inner.reverse.filterMap (fun e =>
      match e.destroy a with
      | .ok _ => none
      | .error msg => some msg) := by
  obtain ⟨l⟩ := q
  cases l with
  | nil => rfl
  | cons e rest => simp [DeleteQueue.flush, destroyLoop_snd]

/-! ## Claim theorems -/

/-- C1: for every sequence of `push` calls on a fresh `DeleteQueue` followed
by one `flush`, the records are destroyed in exactly the reverse order they
were pushed and the queue is empty after the flush; in particular pushing
Fence, CommandPool, Semaphore in that order and flushing destroys the
Semaphore, then the CommandPool, then the Fence. -/
theorem c1_push_flush_reverse_order (l : List DeletionEntry) (a : Allocator) :
    ((DeleteQueue.new.pushAll l).flush a).destroyed = l.reverse ∧
    ((DeleteQueue.new.pushAll l).flush a).queue.inner = [] ∧
    ((DeleteQueue.new.pushAll
        [.Fence 1, .CommandPool 2, .Semaphore 3]).flush a).destroyed =
      [.Semaphore 3, .CommandPool 2, .Fence 1] := by
  refine ⟨?_, DeleteQueue.flush_queue _ a, ?_⟩
  · rw [DeleteQueue.flush_destroyed, DeleteQueue.pushAll_inner]
    simp [DeleteQueue.new]
  · rw [DeleteQueue.flush_destroyed, DeleteQueue.pushAll_inner]
    rfl

/-- C2: `append(other)` moves all of `other`'s records to the end of `self`
preserving their relative order and leaves `other` empty, and a subsequent
`flush` of `self` destroys all of `other`'s former entries before any of
`self`'s pre-existing entries. -/
theorem c2_append_moves_then_flush (self from_ : DeleteQueue) (a : Allocator) :
    (self.append from_).1.inner = self.inner ++ from_.inner ∧
    (self.append from_).2.inner = [] ∧
    ((self.append from_).1.flush a).destroyed =
      from_.inner.reverse ++ self.inner.reverse := by
  refine ⟨rfl, rfl, ?_⟩
  rw [DeleteQueue.flush_destroyed]
  show (self.inner ++ from_.inner).reverse = _
  simp

/-- C7: a destruction failure during `flush` is reported (one logged error
per failed destroy, in pass order) but never aborts the flush: every record
is still destroyed, the queue is left empty, and — `flush` returning `()` in
the source, modelled by the total return type — no error reaches the caller.
This holds for every queue contents and every failure pattern of the
allocator, including one on which every free fails. -/
theorem c7_flush_failure_reported_not_propagated (q : DeleteQueue) (a : Allocator) :
    (q.flush a).destroyed = q.inner.reverse ∧
    (q.flush a).queue.inner = [] ∧
    (q.flush a).errorsLogged = q.inner.reverse.filterMap (fun e =>
      match e.destroy a with
      | .ok _ => none
      | .error msg => some msg) ∧
    ((DeleteQueue.mk [.Allocation 1, .Fence 2, .Allocation 3]).flush failAllocator).destroyed
      = [.Allocation 3, .Fence 2, .Allocation 1] ∧
    ((DeleteQueue.mk [.Allocation 1, .Fence 2, .Allocation 3]).flush
      failAllocator).errorsLogged.length = 2 := by
  refine ⟨DeleteQueue.flush_destroyed q a, DeleteQueue.flush_queue q a,
    DeleteQueue.flush_errors q a, ?_, ?_⟩ <;> rfl

/-- C8: dropping a `DeleteQueue` that still holds pending records emits
exactly one leak report (in particular with 2 pending entries), dropping an
empty one emits none, and the drop body has no panic or abort path (total
function in the model). -/
theorem c8_drop_leak_report (e1 e2 e : DeletionEntry) (l : List DeletionEntry) :
    (DeleteQueue.mk [e1, e2]).dropLog.length = 1 ∧
    (DeleteQueue.mk (e :: l)).dropLog.length = 1 ∧
    DeleteQueue.new.dropLog = [] := by
  refine ⟨rfl, ?_, rfl⟩
  simp [DeleteQueue.dropLog]

theorem acquireGo_replicate_outOfDate (idx : Nat) (sub : Bool) (k r : Nat) :
    Swapchain.acquireGo { suboptimal := false } r
        (List.replicate k .outOfDate ++ [.ok idx sub]) =
      .ok { index := idx, state := { suboptimal := sub }, recreations := r + k,
            oracleLeft := [] } := by
  induction k generalizing r with
  | zero => simp [Swapchain.acquireGo]
  | succ n ih =>
    rw [List.replicate_succ, List.cons_append]
    show Swapchain.acquireGo { suboptimal := false } (r + 1) _ = _
    rw [ih]
    simp [Nat.add_assoc, Nat.add_comm 1 n]

/-- C3 counterexample: on three consecutive out-of-date results followed by a
success, `Swapchain::acquire` performs three recreations — one per failed
attempt — not one as the claim states (it does return the image on the
fourth underlying attempt). -/
theorem c3_counterexample_three_recreations :
    Swapchain.acquire scenarioB =
      .ok { index := 0, state := { suboptimal := false }, recreations := 3,
            oracleLeft := [] } ∧
    (3 : Nat) ≠ 1 := by
  exact ⟨rfl, by decide⟩

/-- C3 amended: if the underlying acquire reports out-of-date `k` times
consecutively and then succeeds, `Swapchain::acquire` performs exactly `k`
recreations — one per out-of-date result, recreation is not batched — and
returns a valid image on underlying attempt `k + 1`, consuming the whole
oracle; in particular three out-of-date results give three recreations and
success on the fourth attempt. -/
theorem c3_amended_one_recreation_per_out_of_date (k idx : Nat) (sub : Bool) :
    Swapchain.acquire (List.replicate k .outOfDate ++ [.ok idx sub]) =
      .ok { index := idx, state := { suboptimal := sub }, recreations := k,
            oracleLeft := [] } ∧
    Swapchain.acquire scenarioB =
      .ok { index := 0, state := { suboptimal := false }, recreations := 3,
            oracleLeft := [] } := by
  constructor
  · have h := acquireGo_replicate_outOfDate idx sub k 0
    rw [Nat.zero_add] at h
    exact h
  · rfl

/-- C4 counterexample: at cursor 0, `next()` returns slot index 0 but the
cursor after the advance is 1, so the slot returned by `next()` is not the
slot that `current()` designates after the advance. -/
theorem c4_counterexample_next_returns_pre_advance_slot :
    ¬ ((FramesInFlight.mk 0).next.2 = ((FramesInFlight.mk 0).next.1.current).2) := by
  decide

/-- C4 amended: for every ring with cursor less than N (N = 2), `next()`
advances the cursor by one modulo N but returns the slot at the cursor
*before* the advance (the slot that was current); `current()` returns the
slot at the cursor and `previous()` the slot at (cursor - 1) mod N, neither
changing the cursor. -/
theorem c4_amended_cursor_rotation (s : FramesInFlight) (h : s.frame < framesLen) :
    s.next.1.frame = (s.frame + 1) % framesLen ∧
    s.next.2 = s.current.2 ∧
    s.current = (s, s.frame) ∧
    s.previous = (s, (s.frame + (framesLen - 1)) % framesLen) := by
  refine ⟨rfl, rfl, rfl, ?_⟩
  obtain ⟨f⟩ := s
  simp only [framesLen] at h
  interval_cases f <;> decide

/-- Witness for the amended C4 at the concrete ring state with cursor 0. -/
theorem c4_amended_cursor_rotation_witness :
    (FramesInFlight.mk 0).frame < framesLen ∧
    ((FramesInFlight.mk 0).next.1.frame = ((FramesInFlight.mk 0).frame + 1) % framesLen ∧
     (FramesInFlight.mk 0).next.2 = (FramesInFlight.mk 0).current.2 ∧
     (FramesInFlight.mk 0).current = (FramesInFlight.mk 0, (FramesInFlight.mk 0).frame) ∧
     (FramesInFlight.mk 0).previous =
       (FramesInFlight.mk 0, ((FramesInFlight.mk 0).frame + (framesLen - 1)) % framesLen)) :=
  ⟨by decide, c4_amended_cursor_rotation (FramesInFlight.mk 0) (by decide)⟩

/-- C5 counterexample: the drop body of `Graphics` contains no flush of a
per-frame delete queue at all, so the claimed "each per-frame queue first"
step does not happen (shown for frame slot 0). -/
theorem c5_counterexample_no_per_frame_flush :
    TeardownStep.flushFrameQueue 0 ∉ graphicsDropTrace := by
  decide

/-- C5 amended: the teardown of `Graphics` first performs a full device-idle
wait, then flushes the render-target queue, then the global queue (the
per-frame delete queues are never flushed, merely dropped with the frame
slots), then drops the allocator and destroys the swapchain, device, surface
and debug hooks, in that reverse-bootstrap order. -/
theorem c5_amended_teardown_order :
    graphicsDropTrace.indexOf .deviceWaitIdle = 0 ∧
    (∀ i, TeardownStep.flushFrameQueue i ∉ graphicsDropTrace) ∧
    graphicsDropTrace.indexOf .flushRenderTargetQueue <
      graphicsDropTrace.indexOf .flushGlobalQueue ∧
    graphicsDropTrace.indexOf .flushGlobalQueue <
      graphicsDropTrace.indexOf .dropAllocator ∧
    graphicsDropTrace.indexOf .dropAllocator <
      graphicsDropTrace.indexOf .destroySwapchain ∧
    graphicsDropTrace.indexOf .destroySwapchain <
      graphicsDropTrace.indexOf .destroyDevice ∧
    graphicsDropTrace.indexOf .destroyDevice <
      graphicsDropTrace.indexOf .destroySurface ∧
    graphicsDropTrace.indexOf .destroySurface <
      graphicsDropTrace.indexOf .destroyDebugUtils ∧
    graphicsDropTrace.length = 8 := by
  refine ⟨by decide, ?_, by decide, by decide, by decide, by decide, by decide,
    by decide, by decide⟩
  intro i
  simp [graphicsDropTrace]

theorem FrameSlot.hostRun_renderFence (l : List HostEvent) (s : FrameSlot) :
    (FrameSlot.hostRun l s).renderFence = s.renderFence := by
  induction l generalizing s with
  | nil => rfl
  | cons e rest ih =>
    show (FrameSlot.hostRun rest (FrameSlot.hostStep e s)).renderFence = _
    rw [ih]
    cases e <;> rfl

theorem all_isDestroy_map (l : List DeletionEntry) :
    (l.map WaitAction.destroy).all WaitAction.isDestroy = true := by
  induction l with
  | nil => rfl
  | cons e rest ih => simp [WaitAction.isDestroy, ih]

/-- C6: a frame slot's render fence is created in the signaled state (flag
`SIGNALED` at construction), so the first `wait()` on a fresh slot never
blocks; `wait()` leaves the fence unsignaled, and it stays unsignaled across
any sequence of host calls (begin/end/submit) — in particular after every
`submit()` — until the GPU completion signals it, after which a `wait()`
would not block; and inside `wait()` the fence reset happens before any
destroy of the slot's private delete-queue flush. -/
theorem c6_fence_discipline :
    FrameInFlight.new.renderFence = .signaled ∧
    FrameInFlight.new.waitWouldBlock = false ∧
    (∀ (s : FrameSlot) (a : Allocator), (s.wait a).renderFence = .unsignaled) ∧
    (∀ (s : FrameSlot) (a : Allocator) (l : List HostEvent),
      (FrameSlot.hostRun l (s.wait a)).renderFence = .unsignaled) ∧
    (∀ s : FrameSlot, s.gpuComplete.renderFence = .signaled ∧
      s.gpuComplete.waitWouldBlock = false) ∧
    (∀ (s : FrameSlot) (a : Allocator),
      (s.waitTrace a).take 2 = [.waitFences, .resetFences] ∧
      ((s.waitTrace a).drop 2).all WaitAction.isDestroy = true) := by
  refine ⟨rfl, rfl, fun s a => rfl, ?_, fun s => ⟨rfl, rfl⟩, ?_⟩
  · intro s a l
    rw [FrameSlot.hostRun_renderFence]
    rfl
  · intro s a
    refine ⟨rfl, ?_⟩
    show ((s.deleteQueue.flush a).destroyed.map WaitAction.destroy).all _ = true
    exact all_isDestroy_map _

/-- C9: `BufferBuilder::build` succeeds whenever the native create, allocate
and bind calls succeed — capacity 0 included, there is no zero-size error
path — pushing the buffer then the allocation into the delete queue; on the
resulting `Buffer`, `as_slice` is a view of exactly `size` bytes when the
allocation has a mapped pointer (host-visible memory) and `none` for any
other memory location, so a capacity-0 buffer over mapped memory yields the
empty view rather than an error. -/
theorem c9_buffer_build_views (b : BufferBuilder) (device : BufDevice)
    (allocator : BufAllocator) (dq : List BufPush) (bufh : Nat) (alloc : BufAllocation)
    (hc : device.createBuffer b.capacity = .ok bufh)
    (ha : allocator.allocate (device.bufferMemoryRequirements bufh) b.location = .ok alloc)
    (hb : device.bindBufferMemory bufh alloc.memory alloc.offset = .ok ()) :
    ∃ buf : Buffer,
      (b.build device allocator dq).1 = .ok (buf, dq ++ [.buffer bufh, .allocation]) ∧
      buf.size = b.capacity ∧
      buf.ptr = alloc.mappedPtr ∧
      (buf.as_slice = none ↔ alloc.mappedPtr = none) ∧
      (∀ bytes, buf.as_slice = some bytes → bytes.length = b.capacity) ∧
      (b.capacity = 0 → ∀ m, alloc.mappedPtr = some m → buf.as_slice = some []) := by
  refine ⟨{ buffer := bufh, size := b.capacity, ptr := alloc.mappedPtr }, ?_, rfl, rfl,
    ?_, ?_, ?_⟩
  · unfold BufferBuilder.build
    rw [hc]
    simp only
    rw [ha]
    simp only
    rw [hb]
    simp [List.append_assoc]
  · cases h : alloc.mappedPtr <;> simp [Buffer.as_slice, h]
  · intro bytes hsome
    cases h : alloc.mappedPtr with
    | none => rw [Buffer.as_slice, h] at hsome; simp at hsome
    | some m =>
      rw [Buffer.as_slice, h] at hsome
      simp at hsome
      rw [← hsome]
      simp
  · intro h0 m hm
    rw [Buffer.as_slice, hm, h0]
    simp

/-- Witness for C9: building with the default builder (capacity 0) against
concrete all-succeed oracles and a mapped allocation. -/
theorem c9_buffer_build_views_witness :
    witDevice.createBuffer Buffer.builder.capacity = .ok 10 ∧
    (∃ buf : Buffer,
      (Buffer.builder.build witDevice witAllocator []).1 =
        .ok (buf, [] ++ [.buffer 10, .allocation]) ∧
      buf.size = Buffer.builder.capacity ∧
      buf.ptr = witAllocation.mappedPtr ∧
      (buf.as_slice = none ↔ witAllocation.mappedPtr = none) ∧
      (∀ bytes, buf.as_slice = some bytes → bytes.length = Buffer.builder.capacity) ∧
      (Buffer.builder.capacity = 0 → ∀ m, witAllocation.mappedPtr = some m →
        buf.as_slice = some [])) :=
  ⟨rfl,
    c9_buffer_build_views Buffer.builder witDevice witAllocator [] 10 witAllocation
      rfl rfl rfl⟩

theorem nextMultipleOf_ge (n : Nat) : n ≤ nextMultipleOf n RENDER_TARGET_MULTIPLES := by
  unfold nextMultipleOf RENDER_TARGET_MULTIPLES
  omega

theorem nextMultipleOf_le (n : Nat) :
    nextMultipleOf n RENDER_TARGET_MULTIPLES ≤ n + RENDER_TARGET_MULTIPLES := by
  unfold nextMultipleOf RENDER_TARGET_MULTIPLES
  omega

theorem renderTargetFits_nextMultipleOf (c : Extent2D) :
    renderTargetFits
      { width := nextMultipleOf c.width RENDER_TARGET_MULTIPLES
        height := nextMultipleOf c.height RENDER_TARGET_MULTIPLES } c = true := by
  have hw1 := nextMultipleOf_ge c.width
  have hw2 := nextMultipleOf_le c.width
  have hh1 := nextMultipleOf_ge c.height
  simp only [renderTargetFits, Bool.and_eq_true, decide_eq_true_eq, Nat.dist]
  refine ⟨⟨⟨hw1, hh1⟩, ?_⟩, ?_⟩ <;> omega

/-- C10: `resize` with an unchanged window extent is idempotent — the
recreated swapchain extent, clamped to the surface min/max image extent, is
the same on every call, the second call changes nothing, and across repeated
calls the delete queues grow by at most the one generation of replaced
render-target entries the first call may produce. -/
theorem c10_resize_idempotent (s : RenderState) (w : Extent2D) (caps : SurfaceCaps) :
    (Graphics.resize s w caps).swapExt = clampExtent w caps ∧
    Graphics.resize (Graphics.resize s w caps) w caps = Graphics.resize s w caps ∧
    (Graphics.resize s w caps).frameDQLen + (Graphics.resize s w caps).rtDQLen ≤
      s.frameDQLen + s.rtDQLen + renderTargetGeneration := by
  unfold Graphics.resize
  by_cases hfit : renderTargetFits s.targetExt (clampExtent w caps) = true
  · simp [hfit]
  · simp [hfit, renderTargetFits_nextMultipleOf, renderTargetGeneration]

end Luminary
